import Mathlib

set_option maxRecDepth 100000

/-!
Shallow embedding of `janstarke/buf_stream_reader`, file `src/reader.rs`.

The Rust struct `BufStreamReader<R>` wraps a forward-only reader `R : Read`.
We instantiate the wrapped reader with its canonical model (the one used by the
crate's own doctests, `std::io::Cursor` over a byte slice): a list of the bytes
still to be delivered, where a `read` into an `n`-byte buffer returns the first
`min n remaining` bytes and consumes them.  Bytes are modelled as `Nat`.

The field `cursor : Cursor<Vec<u8>>` of the Rust struct is split into its two
components: `cursor_vec` (the owned byte vector, always of length
`buffer_size`) and `cursor_pos` (the cursor's position).  `std::io::Cursor`
over a `Vec<u8>` is infallible: `read` returns `Ok(min (dst.len) (len - pos))`
(zero at or past the end, never an error), and `seek(SeekFrom::Start(p))`
unconditionally sets the position to `p` and returns it.  Consequently the
`Err(why)` arm inside `BufStreamReader::read`'s loop is unreachable for this
instantiation and is not modelled.

Rust `u64`/`usize` arithmetic is modelled on `Nat`; the one place where
wrap-around is reachable (`skip_buffers = q - 1` with `q = 0` in
`seek_until_position`) is modelled explicitly as `2^64 - 1`, and the one place
where Rust panics on a division by zero (`position_in_buffer % buffer_size`
with `buffer_size = 0`) is modelled as a distinguished `panicked` outcome, as
is the `unimplemented!()` panic of `SeekFrom::End`.

Every operation takes the state and returns a result together with the state
as left behind by the Rust method (errors can leave a mutated state, because
`read`/`seek` take `&mut self` and may fail after partial progress).
-/

/-- `std::io::ErrorKind` values actually produced by `reader.rs`:
`UnexpectedEof` ("read 0 bytes") and `InvalidData`
("cannot seek before current buffer"). -/
inductive ErrorKind where
  | unexpectedEof
  | invalidData
  deriving DecidableEq, Repr

/-- The state of `BufStreamReader<R>` (reader.rs lines 4-11), with the wrapped
reader modelled as the list of bytes it has yet to produce and the inner
`Cursor<Vec<u8>>` split into `cursor_vec`/`cursor_pos`. -/
structure BufStreamReader where
  reader : List Nat
  offset : Nat
  buffer_size : Nat
  bytes_in_buffer : Nat
  cursor_vec : List Nat
  cursor_pos : Nat
  current_in_buffer : Nat
  deriving DecidableEq, Repr

/-- Result of `Read::read`: the bytes written into `dst` (the Rust return
value `Ok(n)` corresponds to `ok data` with `data.length = n`), an I/O error,
or a panic (unreachable in `read`, present for uniformity). -/
inductive ReadResult where
  | ok (data : List Nat)
  | err (e : ErrorKind)
  | panicked
  deriving DecidableEq, Repr

/-- Result of `Seek::seek` and of `seek_until_position`: a position on
success, an error, or a panic. -/
inductive SeekResult where
  | ok (pos : Nat)
  | err (e : ErrorKind)
  | panicked
  deriving DecidableEq, Repr

/-- `std::io::SeekFrom`.  `End` is spelled `fromEnd` because `end` is a Lean
keyword. -/
inductive SeekFrom where
  | start (pos : Nat)
  | current (pos : Int)
  | fromEnd (pos : Int)
  deriving DecidableEq, Repr

namespace BufStreamReader

/-- `std::io::Cursor::<Vec<u8>>::read` into a destination of length `n`:
returns the bytes read and the new cursor position.  Reads
`min n (vec.length - pos)` bytes (zero when the position is at or past the
end) and advances the position by that amount. -/
def cursorRead (vec : List Nat) (pos n : Nat) : List Nat × Nat :=
  let data := (vec.drop pos).take n
  (data, pos + data.length)

/-- `initialize_buffer` (reader.rs lines 51-58): allocate `vec![0; buffer_size]`,
read once from the wrapped reader into it, and fail with `UnexpectedEof` when
that read returns 0 bytes.  Returns (bytes read, the vector — live bytes
followed by the untouched zero fill —, remaining reader contents). -/
def initialize_buffer (reader : List Nat) (buffer_size : Nat) :
    Except ErrorKind (Nat × List Nat × List Nat) :=
  let chunk := reader.take buffer_size
  if chunk.length = 0 then
    .error .unexpectedEof
  else
    .ok (chunk.length, chunk ++ List.replicate (buffer_size - chunk.length) 0,
         reader.drop buffer_size)

/-- `BufStreamReader::new` (reader.rs lines 19-31): eagerly reads the first
buffer and fails when it is empty. -/
def new (reader : List Nat) (buffer_size : Nat) : Except ErrorKind BufStreamReader :=
  match initialize_buffer reader buffer_size with
  | .error e => .error e
  | .ok (bytes, vec, rest) =>
      .ok { reader := rest
            offset := 0
            buffer_size := buffer_size
            bytes_in_buffer := bytes
            cursor_vec := vec
            cursor_pos := 0
            current_in_buffer := 0 }

/-- `read_next_buffer` (reader.rs lines 42-49): refill the window; on success
`offset` grows by the *old* `bytes_in_buffer` and the cursor and
`current_in_buffer` are reset.  On failure the state is as before (the failed
source read consumed nothing). -/
def read_next_buffer (s : BufStreamReader) : Option ErrorKind × BufStreamReader :=
  match initialize_buffer s.reader s.buffer_size with
  | .error e => (some e, s)
  | .ok (bytes, vec, rest) =>
      (none, { s with
                reader := rest
                offset := s.offset + s.bytes_in_buffer
                cursor_vec := vec
                cursor_pos := 0
                bytes_in_buffer := bytes
                current_in_buffer := 0 })

/-- The skip loop of `seek_until_position` (reader.rs lines 70-74): `k` times,
read `buffer_size` bytes from the wrapped reader into a scratch buffer and add
the number actually read to `offset`.  Returns the remaining reader contents
and the new `offset`. -/
def skipLoop (k : Nat) (reader : List Nat) (offset buffer_size : Nat) :
    List Nat × Nat :=
  match k with
  | 0 => (reader, offset)
  | k + 1 =>
      skipLoop k (reader.drop buffer_size)
        (offset + (reader.take buffer_size).length) buffer_size

/-- `seek_until_position` (reader.rs lines 61-78).  When the requested
in-window position is inside the live bytes it is returned unchanged;
otherwise the target's residual offset modulo `buffer_size` is computed,
`skip_buffers = (position_in_buffer - offset_in_buffer) / buffer_size - 1`
whole buffers are read and discarded (`u64` arithmetic: the subtraction wraps
to `2^64 - 1` when the quotient is zero, which happens when the current window
is short-filled), and finally `read_next_buffer` is called.  With
`buffer_size = 0` the Rust `%` panics. -/
def seek_until_position (s : BufStreamReader) (position_in_buffer : Nat) :
    SeekResult × BufStreamReader :=
  if position_in_buffer < s.bytes_in_buffer then
    (.ok position_in_buffer, s)
  else if s.buffer_size = 0 then
    (.panicked, s)
  else
    let offset_in_buffer := position_in_buffer % s.buffer_size
    let q := (position_in_buffer - offset_in_buffer) / s.buffer_size
    let skip_buffers := if q = 0 then 2 ^ 64 - 1 else q - 1
    let p := skipLoop skip_buffers s.reader s.offset s.buffer_size
    let s1 := { s with reader := p.1, offset := p.2 }
    match read_next_buffer s1 with
    | (some e, s2) => (.err e, s2)
    | (none, s2) => (.ok offset_in_buffer, s2)

/-- The loop body of `Read::read` (reader.rs lines 83-104), with the loop
unrolled on a fuel parameter; `remaining = dst.len() - bytes_read` and `acc`
holds the bytes copied into `dst` so far.  Each iteration reads from the inner
cursor; when `dst` is full the final chunk's size is added to
`current_in_buffer` and the call returns, otherwise the window is refilled
(propagating its error) and the loop continues.  `read` supplies enough fuel
that the `0` case is unreachable. -/
def readLoop (fuel : Nat) (s : BufStreamReader) (remaining : Nat)
    (acc : List Nat) : ReadResult × BufStreamReader :=
  match fuel with
  | 0 => (.panicked, s)
  | fuel + 1 =>
      let p := cursorRead s.cursor_vec s.cursor_pos remaining
      let bytes := p.1.length
      let s' := { s with cursor_pos := p.2 }
      if bytes = remaining then
        (.ok (acc ++ p.1), { s' with current_in_buffer := s'.current_in_buffer + bytes })
      else
        match read_next_buffer s' with
        | (none, s2) => readLoop fuel s2 (remaining - bytes) (acc ++ p.1)
        | (some e, s2) => (.err e, s2)

/-- `Read::read` (reader.rs lines 82-105) into a destination of length `n`.
Every successful refill consumes at least one byte of the wrapped reader, so
`s.reader.length + 1` iterations always suffice. -/
def read (s : BufStreamReader) (n : Nat) : ReadResult × BufStreamReader :=
  readLoop (s.reader.length + 1) s n []

/-- The common tail of the `Start` and `Current` arms of `Seek::seek`
(reader.rs lines 120-124 and 134-139, which are textually identical): advance
the window when the in-window target is at or past the live bytes, then
`cursor.seek(SeekFrom::Start(position_in_buffer))` (which just stores the
position and returns it) and return it plus the — possibly advanced —
`offset`.  Note that `current_in_buffer` is *not* updated. -/
def seekCommon (s : BufStreamReader) (position_in_buffer : Nat) :
    SeekResult × BufStreamReader :=
  if s.bytes_in_buffer ≤ position_in_buffer then
    match seek_until_position s position_in_buffer with
    | (.ok p, s1) => (.ok (p + s1.offset), { s1 with cursor_pos := p })
    | (.err e, s1) => (.err e, s1)
    | (.panicked, s1) => (.panicked, s1)
  else
    (.ok (position_in_buffer + s.offset), { s with cursor_pos := position_in_buffer })

/-- `Seek::seek` (reader.rs lines 109-147).  `Start(pos)` with
`pos < offset` and `Current(pos)` with `pos < 0 ∧ |pos| > current_in_buffer`
fail with `InvalidData` leaving the state untouched; otherwise the in-window
target is computed and handled by the common tail.  `SeekFrom::End` hits
`unimplemented!()`, i.e. panics. -/
def seek (s : BufStreamReader) (f : SeekFrom) : SeekResult × BufStreamReader :=
  match f with
  | .start pos =>
      if pos < s.offset then
        (.err .invalidData, s)
      else
        seekCommon s (pos - s.offset)
  | .current pos =>
      if pos < 0 ∧ s.current_in_buffer < (-pos).toNat then
        (.err .invalidData, s)
      else
        seekCommon s (pos + (s.current_in_buffer : Int)).toNat
  | .fromEnd _ => (.panicked, s)

end BufStreamReader

/-- Convenience: the state produced by a successful `BufStreamReader::new`
(falls back to a dummy state when construction fails; only used at arguments
where construction succeeds, which the theorems check). -/
def newState (reader : List Nat) (buffer_size : Nat) : BufStreamReader :=
  match BufStreamReader.new reader buffer_size with
  | .ok s => s
  | .error _ => { reader := []
                  offset := 0
                  buffer_size := 0
                  bytes_in_buffer := 0
                  cursor_vec := []
                  cursor_pos := 0
                  current_in_buffer := 0 }

/-- C1: the claim says that for every window size `W ≥ 1` and every finite
source, reads return exactly the source's bytes with no invented or
zero-filled bytes, and the final successful call short-reads exactly the
remaining live bytes.  The code violates this: with window size 2 over the
one-byte source `[9]`, the window vector is `[9, 0]` (one live byte plus the
untouched zero fill), and a read of 2 bytes succeeds returning both bytes,
serving the invented `0` instead of short-reading the single live byte. -/
theorem c1_zero_padding_bug :
    (newState [9] 2).bytes_in_buffer = 1 ∧
    (BufStreamReader.read (newState [9] 2) 2).1 = .ok [9, 0] ∧
    (BufStreamReader.read (newState [9] 2) 2).1 ≠ .ok [9] := by
  decide

/-- C2 counterexample: the claim says that when a refill reports end-of-data
after at least one byte has been copied into `dst`, `read` returns the partial
count as a success.  With window size 2 over the source `[5, 6]`, a read of 3
bytes copies `[5, 6]` into `dst` and then hits end-of-data on the refill; the
code propagates the `UnexpectedEof` error instead of returning `Ok(2)`. -/
theorem c2_short_read_counterexample :
    (BufStreamReader.read (newState [5, 6] 2) 3).1 = .err .unexpectedEof ∧
    (BufStreamReader.read (newState [5, 6] 2) 3).1 ≠ .ok [5, 6] := by
  decide

/-- C3: the claim says that after a successful seek past the current window
the accessors satisfy `returned position = offset() + current()`.  The code
violates the accessor equation: `seek` moves the inner window cursor but never
updates `current_in_buffer`.  Concretely, on a fresh reader (window 16, source
`0..=255`), `seek(Start(27))` succeeds returning 27 and advances `offset` by
the 16 live bytes of the single discarded window, but `current_in_buffer`
stays 0, so `offset() + current() = 16 ≠ 27`. -/
theorem c3_accessor_bug :
    (BufStreamReader.seek (newState (List.range 256) 16) (.start 27)).1 = .ok 27 ∧
    (BufStreamReader.seek (newState (List.range 256) 16) (.start 27)).2.offset =
      (newState (List.range 256) 16).offset +
        (newState (List.range 256) 16).bytes_in_buffer ∧
    (BufStreamReader.seek (newState (List.range 256) 16) (.start 27)).2.current_in_buffer = 0 ∧
    (BufStreamReader.seek (newState (List.range 256) 16) (.start 27)).2.offset +
      (BufStreamReader.seek (newState (List.range 256) 16) (.start 27)).2.current_in_buffer
      ≠ 27 := by
  decide

/-- C4: the concrete documentation scenario (window size 16, source
`0..=255`).  First part: read 7 yields bytes 0..6; seek `Current(-4)` succeeds
returning position 3; read 7 yields bytes 3..9.  Second part, on a fresh
reader: seek `Start(96)` succeeds, then `Start(95)` fails, then `Current(-1)`
fails.  Third part, on a fresh reader: seek `Start(10)` succeeds, read 7
yields bytes 10..16, seek `Current(122)` succeeds returning 139, and read 7
yields bytes 139..145. -/
theorem c4_doctest_scenario :
    (BufStreamReader.read (newState (List.range 256) 16) 7).1
      = .ok [0, 1, 2, 3, 4, 5, 6] ∧
    (BufStreamReader.seek
        (BufStreamReader.read (newState (List.range 256) 16) 7).2
        (.current (-4))).1 = .ok 3 ∧
    (BufStreamReader.read
        (BufStreamReader.seek
          (BufStreamReader.read (newState (List.range 256) 16) 7).2
          (.current (-4))).2 7).1 = .ok [3, 4, 5, 6, 7, 8, 9] ∧
    (BufStreamReader.seek (newState (List.range 256) 16) (.start 96)).1
      = .ok 96 ∧
    (BufStreamReader.seek
        (BufStreamReader.seek (newState (List.range 256) 16) (.start 96)).2
        (.start 95)).1 = .err .invalidData ∧
    (BufStreamReader.seek
        (BufStreamReader.seek (newState (List.range 256) 16) (.start 96)).2
        (.current (-1))).1 = .err .invalidData ∧
    (BufStreamReader.seek (newState (List.range 256) 16) (.start 10)).1
      = .ok 10 ∧
    (BufStreamReader.read
        (BufStreamReader.seek (newState (List.range 256) 16) (.start 10)).2
        7).1 = .ok [10, 11, 12, 13, 14, 15, 16] ∧
    (BufStreamReader.seek
        (BufStreamReader.read
          (BufStreamReader.seek (newState (List.range 256) 16) (.start 10)).2
          7).2 (.current 122)).1 = .ok 139 ∧
    (BufStreamReader.read
        (BufStreamReader.seek
          (BufStreamReader.read
            (BufStreamReader.seek (newState (List.range 256) 16) (.start 10)).2
            7).2 (.current 122)).2 7).1
      = .ok [139, 140, 141, 142, 143, 144, 145] := by
  decide

/-- C6: the claim says `current_in_buffer ≤ bytes_in_buffer ≤ buffer_size`
holds after construction and is preserved by every read and seek.  The code
violates it: `seek` repositions the window cursor without updating
`current_in_buffer`, and `read` adds only its final chunk to
`current_in_buffer`.  With window 16 over a 16-byte source, the sequence
read 1, seek `Current(-1)`, read 16 leaves `current_in_buffer = 17` while
`bytes_in_buffer = 16`. -/
theorem c6_invariant_bug :
    (BufStreamReader.read
        (BufStreamReader.seek
          (BufStreamReader.read (newState (List.range 16) 16) 1).2
          (.current (-1))).2 16).2.current_in_buffer = 17 ∧
    (BufStreamReader.read
        (BufStreamReader.seek
          (BufStreamReader.read (newState (List.range 16) 16) 1).2
          (.current (-1))).2 16).2.bytes_in_buffer = 16 ∧
    ¬ ((BufStreamReader.read
          (BufStreamReader.seek
            (BufStreamReader.read (newState (List.range 16) 16) 1).2
            (.current (-1))).2 16).2.current_in_buffer ≤
        (BufStreamReader.read
          (BufStreamReader.seek
            (BufStreamReader.read (newState (List.range 16) 16) 1).2
            (.current (-1))).2 16).2.bytes_in_buffer) := by
  decide

/-- C5 counterexample: the claim says a `SeekFrom::End` seek fails by
returning an error to the caller and never terminates the program.  The code
instead hits `unimplemented!()`, a panic: at a concrete freshly constructed
state, the outcome is the panic outcome and not an error of either kind the
implementation can produce (nor a success). -/
theorem c5_end_counterexample :
    (BufStreamReader.seek (newState [1, 2] 2) (.fromEnd 0)).1 = .panicked ∧
    (BufStreamReader.seek (newState [1, 2] 2) (.fromEnd 0)).1 ≠ .err .invalidData ∧
    (BufStreamReader.seek (newState [1, 2] 2) (.fromEnd 0)).1 ≠ .err .unexpectedEof ∧
    (BufStreamReader.seek (newState [1, 2] 2) (.fromEnd 0)).1 ≠ .ok 0 := by
  decide

/-- C5 amended: for every state and every argument, `seek` with
`SeekFrom::End` panics (the `unimplemented!()` macro), leaving the state
untouched; it never succeeds and never returns an error to the caller. -/
theorem c5_end_always_panics (s : BufStreamReader) (d : Int) :
    BufStreamReader.seek s (.fromEnd d) = (.panicked, s) := by
  rfl

/-- C10: for every state, a read into an empty destination returns success
with zero bytes and leaves the whole state (wrapped reader, `offset`, window
contents, cursor position, `current_in_buffer`) unchanged — even when the
wrapped source is already exhausted. -/
theorem c10_empty_read (s : BufStreamReader) :
    BufStreamReader.read s 0 = (.ok [], s) := by
  rfl

/-- C7: for every state, an absolute seek to a position strictly below
`offset` fails with the `InvalidData` ("cannot seek before current buffer")
error and returns the state completely unchanged. -/
theorem c7_seek_before_offset (s : BufStreamReader) (pos : Nat)
    (h : pos < s.offset) :
    BufStreamReader.seek s (.start pos) = (.err .invalidData, s) := by
  simp [BufStreamReader.seek, h]

/-- Witness for C7 at a concrete state with `offset = 5` and target 3. -/
theorem c7_seek_before_offset_witness :
    BufStreamReader.seek
        { reader := [], offset := 5, buffer_size := 2, bytes_in_buffer := 2,
          cursor_vec := [1, 2], cursor_pos := 0, current_in_buffer := 0 }
        (.start 3)
      = (.err .invalidData,
         { reader := [], offset := 5, buffer_size := 2, bytes_in_buffer := 2,
           cursor_vec := [1, 2], cursor_pos := 0, current_in_buffer := 0 }) :=
  c7_seek_before_offset
    { reader := [], offset := 5, buffer_size := 2, bytes_in_buffer := 2,
      cursor_vec := [1, 2], cursor_pos := 0, current_in_buffer := 0 }
    3 (by decide)

/-- Helper: a successful `readLoop` delivers exactly the requested number of
bytes on top of the accumulator — partial progress is never returned as a
success, because the only early exits are errors. -/
theorem readLoop_ok_length (fuel : Nat) :
    ∀ (s : BufStreamReader) (remaining : Nat) (acc data : List Nat)
      (s2 : BufStreamReader),
      BufStreamReader.readLoop fuel s remaining acc = (.ok data, s2) →
      data.length = acc.length + remaining := by
  induction fuel with
  | zero =>
      intro s remaining acc data s2 h
      simp [BufStreamReader.readLoop] at h
  | succ fuel ih =>
      intro s remaining acc data s2 h
      simp only [BufStreamReader.readLoop, BufStreamReader.cursorRead] at h
      split at h
      · rename_i hfull
        have h1 := congrArg Prod.fst h
        simp only at h1
        cases h1
        simp [List.length_append, hfull]
      · rename_i hpart
        split at h
        · rename_i s3 hrnb
          have := ih _ _ _ _ _ h
          have hle : (List.take remaining (List.drop s.cursor_pos s.cursor_vec)).length
              ≤ remaining := List.length_take_le remaining _
          simp only [List.length_append] at this
          omega
        · simp at h

/-- C2 amended: whenever `read` succeeds it has filled the destination
completely; equivalently, an end-of-data condition reported by a window refill
during a `read` call is always propagated as an error, regardless of how many
bytes were already copied into `dst` during the call (the partial count is
never returned as a short-read success). -/
theorem c2_read_ok_means_full (s : BufStreamReader) (n : Nat)
    (data : List Nat) (h : (BufStreamReader.read s n).1 = .ok data) :
    data.length = n := by
  have h2 : BufStreamReader.read s n
      = ((BufStreamReader.read s n).1, (BufStreamReader.read s n).2) := rfl
  rw [h] at h2
  have h3 := readLoop_ok_length (s.reader.length + 1) s n [] data
    (BufStreamReader.read s n).2 h2
  simpa using h3

/-- Witness for C2's amended theorem: over the two-byte source `[5, 6]` with
window 2, a read of exactly 2 bytes succeeds with `[5, 6]`, so the theorem
yields its length. -/
theorem c2_read_ok_means_full_witness : ([5, 6] : List Nat).length = 2 :=
  c2_read_ok_means_full (newState [5, 6] 2) 2 [5, 6] (by decide)

/-- Helper: `initialize_buffer` only ever fails with `UnexpectedEof`. -/
theorem initialize_buffer_err (reader : List Nat) (W : Nat) (e : ErrorKind)
    (h : BufStreamReader.initialize_buffer reader W = .error e) :
    e = .unexpectedEof := by
  simp only [BufStreamReader.initialize_buffer] at h
  split at h
  · simp only [Except.error.injEq] at h
    exact h.symm
  · simp at h

/-- Helper: `read_next_buffer` only ever fails with `UnexpectedEof`, and a
failure leaves the state unchanged. -/
theorem read_next_buffer_err (s : BufStreamReader) (e : ErrorKind)
    (s1 : BufStreamReader)
    (h : BufStreamReader.read_next_buffer s = (some e, s1)) :
    e = .unexpectedEof ∧ s1 = s := by
  unfold BufStreamReader.read_next_buffer at h
  split at h
  · rename_i e' hib
    simp only [Prod.mk.injEq, Option.some.injEq] at h
    obtain ⟨he, hs⟩ := h
    exact ⟨he ▸ initialize_buffer_err _ _ _ hib, hs.symm⟩
  · simp at h

/-- Helper: `seek_until_position` never fails with `InvalidData` (its only
error source is the refill, which reports `UnexpectedEof`). -/
theorem seek_until_position_err (s : BufStreamReader) (pib : Nat)
    (e : ErrorKind) (s1 : BufStreamReader)
    (h : BufStreamReader.seek_until_position s pib = (.err e, s1)) :
    e = .unexpectedEof := by
  simp only [BufStreamReader.seek_until_position] at h
  split at h
  · simp at h
  · split at h
    · simp at h
    · split at h
      · rename_i e' s2 hrnb
        simp only [Prod.mk.injEq, SeekResult.err.injEq] at h
        exact h.1 ▸ (read_next_buffer_err _ _ _ hrnb).1
      · simp at h

/-- Helper: the shared in-window-or-advance tail of `seek` never produces the
`InvalidData` error; that error only arises from the two guard checks. -/
theorem seekCommon_not_invalidData (s : BufStreamReader) (pib : Nat) :
    (BufStreamReader.seekCommon s pib).1 ≠ .err .invalidData := by
  unfold BufStreamReader.seekCommon
  split
  · split
    · simp
    · rename_i e s1 hsup
      have := seek_until_position_err _ _ _ _ hsup
      simp [this]
    · simp
  · simp

/-- C8: for every state and every negative relative delta `d`, `seek` with
`SeekFrom::Current(d)` fails with the unreachable-position (`InvalidData`)
error exactly when `|d|` exceeds `current_in_buffer`, leaving the state
completely unchanged on that failure; when `|d| ≤ current_in_buffer` the call
behaves identically to an absolute seek to
`offset + (current_in_buffer - |d|)` — the same within-window-or-advance
logic, targeting the in-window offset `current_in_buffer + d` — and in
particular cannot produce the unreachable-position error. -/
theorem c8_negative_relative_seek (s : BufStreamReader) (d : Int) (hd : d < 0) :
    (s.current_in_buffer < (-d).toNat →
        BufStreamReader.seek s (.current d) = (.err .invalidData, s)) ∧
    ((-d).toNat ≤ s.current_in_buffer →
        BufStreamReader.seek s (.current d)
          = BufStreamReader.seek s
              (.start (s.offset + (s.current_in_buffer - (-d).toNat))) ∧
        (BufStreamReader.seek s (.current d)).1 ≠ .err .invalidData) := by
  constructor
  · intro h
    simp only [BufStreamReader.seek]
    rw [if_pos ⟨hd, h⟩]
  · intro h
    have hguard : ¬ (d < 0 ∧ s.current_in_buffer < (-d).toNat) := by
      rintro ⟨-, h2⟩
      omega
    have hsg : ¬ (s.offset + (s.current_in_buffer - (-d).toNat) < s.offset) := by
      omega
    have harg : (d + (s.current_in_buffer : Int)).toNat
        = s.offset + (s.current_in_buffer - (-d).toNat) - s.offset := by
      omega
    refine ⟨?_, ?_⟩
    · simp only [BufStreamReader.seek]
      rw [if_neg hguard, if_neg hsg, harg]
    · simp only [BufStreamReader.seek]
      rw [if_neg hguard, harg]
      exact seekCommon_not_invalidData s _
  
/-- Witness for C8: at a state with `current_in_buffer = 3`, a relative seek
by `-5` fails with `InvalidData` leaving the state unchanged, and a relative
seek by `-2` coincides with the absolute seek to `0 + (3 - 2)`. -/
theorem c8_negative_relative_seek_witness :
    BufStreamReader.seek
        { reader := [], offset := 0, buffer_size := 2, bytes_in_buffer := 2,
          cursor_vec := [1, 2], cursor_pos := 0, current_in_buffer := 3 }
        (.current (-5))
      = (.err .invalidData,
         { reader := [], offset := 0, buffer_size := 2, bytes_in_buffer := 2,
           cursor_vec := [1, 2], cursor_pos := 0, current_in_buffer := 3 }) ∧
    BufStreamReader.seek
        { reader := [], offset := 0, buffer_size := 2, bytes_in_buffer := 2,
          cursor_vec := [1, 2], cursor_pos := 0, current_in_buffer := 3 }
        (.current (-2))
      = BufStreamReader.seek
          { reader := [], offset := 0, buffer_size := 2, bytes_in_buffer := 2,
            cursor_vec := [1, 2], cursor_pos := 0, current_in_buffer := 3 }
          (.start (0 + (3 - 2))) :=
  ⟨(c8_negative_relative_seek _ (-5) (by decide)).1 (by decide),
   ((c8_negative_relative_seek _ (-2) (by decide)).2 (by decide)).1⟩

/-- C9: construction is eager.  `new(reader, buffer_size)` fails with the
end-of-data error exactly when the first fill reads zero bytes (in particular
a zero-length source fails at construction time, not on first use), and on
success the state already holds the first window: `bytes_in_buffer` is the
size of the first fill, the wrapped reader has been consumed by one window,
and `offset`, `current_in_buffer` and the cursor position are zero. -/
theorem c9_eager_construction (src : List Nat) (W : Nat) :
    (BufStreamReader.new src W = .error .unexpectedEof ↔ src.take W = []) ∧
    BufStreamReader.new [] W = .error .unexpectedEof ∧
    (∀ s, BufStreamReader.new src W = .ok s →
      s.offset = 0 ∧ s.current_in_buffer = 0 ∧ s.cursor_pos = 0 ∧
      s.bytes_in_buffer = (src.take W).length ∧
      s.reader = src.drop W ∧
      s.cursor_vec = src.take W ++ List.replicate (W - (src.take W).length) 0) := by
  refine ⟨?_, ?_, ?_⟩
  · by_cases h : (src.take W).length = 0
    · simp only [BufStreamReader.new, BufStreamReader.initialize_buffer, if_pos h]
      simpa using List.length_eq_zero.mp h
    · simp only [BufStreamReader.new, BufStreamReader.initialize_buffer, if_neg h]
      constructor
      · intro hc
        exact absurd hc (by simp)
      · intro hc
        exact absurd (hc ▸ h) (by simp)
  · simp [BufStreamReader.new, BufStreamReader.initialize_buffer]
  · intro s hs
    simp only [BufStreamReader.new] at hs
    split at hs
    · simp at hs
    · rename_i bytes vec rest heq
      simp only [BufStreamReader.initialize_buffer] at heq
      split at heq
      · simp at heq
      · simp only [Except.ok.injEq, Prod.mk.injEq] at heq
        obtain ⟨hb, hv, hr⟩ := heq
        simp only [Except.ok.injEq] at hs
        subst hs
        exact ⟨rfl, rfl, rfl, hb.symm, hr.symm, hv.symm⟩

/-- Witness for C9 at source `[1, 2, 3]` and window size 2: construction
succeeds and the resulting state holds the two-byte first window with the
third byte still in the wrapped reader. -/
theorem c9_eager_construction_witness :
    ({ reader := [3], offset := 0, buffer_size := 2, bytes_in_buffer := 2,
       cursor_vec := [1, 2], cursor_pos := 0,
       current_in_buffer := 0 } : BufStreamReader).offset = 0 ∧
    ({ reader := [3], offset := 0, buffer_size := 2, bytes_in_buffer := 2,
       cursor_vec := [1, 2], cursor_pos := 0,
       current_in_buffer := 0 } : BufStreamReader).current_in_buffer = 0 ∧
    ({ reader := [3], offset := 0, buffer_size := 2, bytes_in_buffer := 2,
       cursor_vec := [1, 2], cursor_pos := 0,
       current_in_buffer := 0 } : BufStreamReader).cursor_pos = 0 ∧
    ({ reader := [3], offset := 0, buffer_size := 2, bytes_in_buffer := 2,
       cursor_vec := [1, 2], cursor_pos := 0,
       current_in_buffer := 0 } : BufStreamReader).bytes_in_buffer
      = (([1, 2, 3] : List Nat).take 2).length ∧
    ({ reader := [3], offset := 0, buffer_size := 2, bytes_in_buffer := 2,
       cursor_vec := [1, 2], cursor_pos := 0,
       current_in_buffer := 0 } : BufStreamReader).reader
      = ([1, 2, 3] : List Nat).drop 2 ∧
    ({ reader := [3], offset := 0, buffer_size := 2, bytes_in_buffer := 2,
       cursor_vec := [1, 2], cursor_pos := 0,
       current_in_buffer := 0 } : BufStreamReader).cursor_vec
      = ([1, 2, 3] : List Nat).take 2
          ++ List.replicate (2 - (([1, 2, 3] : List Nat).take 2).length) 0 :=
  (c9_eager_construction [1, 2, 3] 2).2.2
    { reader := [3], offset := 0, buffer_size := 2, bytes_in_buffer := 2,
      cursor_vec := [1, 2], cursor_pos := 0, current_in_buffer := 0 }
    (by rfl)
